import Mathlib

/-!
Verification of the FamilySituationSharingBoard server and client logic.

Shallow embedding of:
- `src/server.js`   (Express handlers, SSE broadcast, heartbeat, debounced watcher)
- `src/db/database.js` (better-sqlite3 wrappers over `src/db/schema.sql`)
- `src/app.js`      (browser client: SSE reconnection controller and
                     status-fingerprint change detection)

JavaScript strings that may be `undefined` are modelled as `Option String`;
the JavaScript truthiness of a string (empty string is falsy) is made explicit.
-/

namespace FamilyBoard

/-- Truthiness of a JS value that is either a string or undefined:
`undefined` and the empty string are falsy. -/
def jsTruthy : Option String → Bool
  | none => false
  | some s => s ≠ ""

/-- The JS expression `v || d` for `v : string | undefined`:
yields `d` when `v` is `undefined` or the empty string. -/
def jsOr (v : Option String) (d : String) : String :=
  match v with
  | none => d
  | some s => if s = "" then d else s

/-- A member record as stored in the legacy JSON mirror file
(`family-status.json`): `{name, activity, state, timestamp}`. -/
structure Member where
  name : String
  activity : String
  state : String
  timestamp : String
deriving DecidableEq

/-- A row of the `members` table (`src/db/schema.sql` lines 5-12):
id, name (UNIQUE), activity, state, timestamp, updated_at.
`updated_at` (SQLite CURRENT_TIMESTAMP) is modelled as a Nat tick. -/
structure DbMember where
  id : Nat
  name : String
  activity : String
  state : String
  timestamp : String
  updated_at : Nat
deriving DecidableEq

/-- A row of the `status_history` table (`src/db/schema.sql` lines 15-22). -/
structure HistRow where
  id : Nat
  member_id : Nat
  activity : String
  state : String
  changed_at : String
deriving DecidableEq

/-- The state owned by the server process: the two SQLite tables with their
AUTOINCREMENT counters, and the parsed contents of the JSON mirror file. -/
structure ServerState where
  dbMembers : List DbMember
  nextMemberId : Nat
  dbHistory : List HistRow
  nextHistId : Nat
  mirror : List Member
deriving DecidableEq

/-- getMemberByName (`src/db/database.js` lines 77-80):
`SELECT * FROM members WHERE name = ?` (name is UNIQUE, first match). -/
def getMemberByName (rows : List DbMember) (name : String) : Option DbMember :=
  rows.find? (fun r => r.name == name)

/-- insertOrUpdateMember (`src/db/database.js` lines 101-135).
If a row with the name exists it is updated with exactly the given
activity / state / timestamp (no fallback to the prior values) and a fresh
`updated_at`; otherwise a new row is inserted.  Returns the new table,
the id of the affected row, and the next AUTOINCREMENT id. -/
def insertOrUpdateMember (rows : List DbMember) (nextId : Nat)
    (name activity state timestamp : String) (now : Nat) :
    List DbMember × Nat × Nat :=
  match getMemberByName rows name with
  | some existing =>
    (rows.map (fun r =>
      if r.name == name then
        { r with activity := activity, state := state,
                 timestamp := timestamp, updated_at := now }
      else r), existing.id, nextId)
  | none =>
    (rows ++ [⟨nextId, name, activity, state, timestamp, now⟩], nextId, nextId + 1)

/-- insertHistory (`src/db/database.js` lines 165-189): plain INSERT of one
row into `status_history`. -/
def insertHistory (hist : List HistRow) (nextHistId memberId : Nat)
    (activity state changedAt : String) : List HistRow × Nat :=
  (hist ++ [⟨nextHistId, memberId, activity, state, changedAt⟩], nextHistId + 1)

/-- deleteMember (`src/db/database.js` lines 142-151) together with the
`ON DELETE CASCADE` clause of `status_history` (`src/db/schema.sql` line 21):
deletes the rows matching the name and every history row referencing them.
Returns `info.changes > 0`, the remaining members and the remaining history. -/
def deleteMemberDb (rows : List DbMember) (hist : List HistRow) (name : String) :
    Bool × List DbMember × List HistRow :=
  let deletedIds := (rows.filter (fun r => r.name == name)).map (fun r => r.id)
  (rows.any (fun r => r.name == name),
   rows.filter (fun r => !(r.name == name)),
   hist.filter (fun h => !(deletedIds.contains h.member_id)))

/-- Descending insertion into a list sorted by `updated_at` (model of the
SQL `ORDER BY updated_at DESC`). -/
def insertDesc (r : DbMember) : List DbMember → List DbMember
  | [] => [r]
  | x :: xs => if x.updated_at ≤ r.updated_at then r :: x :: xs else x :: insertDesc r xs

/-- getAllMembers (`src/db/database.js` lines 67-70):
`SELECT * FROM members ORDER BY updated_at DESC`. -/
def getAllMembers (rows : List DbMember) : List DbMember :=
  rows.foldr insertDesc []

/-- View of a database member row as a plain member record (the JSON the
endpoints serve exposes name, activity, state, timestamp). -/
def dbToMember (r : DbMember) : Member :=
  ⟨r.name, r.activity, r.state, r.timestamp⟩

/-- The mirror-file update in the POST handler (`src/server.js` lines 165-183,
identically in the catch fallback lines 192-210 and in the legacy server
`src/unnamed/part_000` lines 136-157): replace the member found by
`findIndex`, falling back to the prior value when the supplied field is
falsy (`activity || prior.activity || ''`); push a new member otherwise. -/
def updateMirrorList (ms : List Member) (name : String)
    (activity state : Option String) (ts : String) : List Member :=
  match ms with
  | [] => [⟨name, jsOr activity "", jsOr state "", ts⟩]
  | m :: rest =>
    if m.name == name then
      ⟨name, jsOr activity (jsOr (some m.activity) ""),
             jsOr state (jsOr (some m.state) ""), ts⟩ :: rest
    else
      m :: updateMirrorList rest name activity state ts

/-- Fault model for one POST request: which of the fallible steps of the
handler throw or fail (`better-sqlite3` calls throw; `writeData` returns
false on failure, `src/server.js` lines 42-50). -/
structure PostFaults where
  upsertThrows : Bool
  historyThrows : Bool
  mirrorWriteFails : Bool
deriving DecidableEq

/-- Outcome of one request handler: HTTP status code, resulting server
state, and how many successful writes of the mirror file happened
(each such write raises an `fs.watch` change signal, i.e. leads to a
debounced broadcast, `src/server.js` lines 349-365). -/
structure HandlerResult where
  status : Nat
  state : ServerState
  mirrorWrites : Nat
deriving DecidableEq

/-- The catch block of the POST handler (`src/server.js` lines 188-217):
JSON-only fallback.  Re-reads the mirror, applies the fallback update and
answers success iff the mirror write succeeds.  Database tables keep
whatever the try block had already committed. -/
def postFallback (name : String) (activity state : Option String)
    (ts : String) (st : ServerState) (mirrorWriteFails : Bool) : HandlerResult :=
  let mirror' := updateMirrorList st.mirror name activity state ts
  if mirrorWriteFails then ⟨500, st, 0⟩
  else ⟨200, { st with mirror := mirror' }, 1⟩

/-- The POST /api/status handler (`src/server.js` lines 143-218).
Validates the name, upserts the member (`activity || ''`, `state || ''`),
appends one history row, updates the mirror file (result of that write is
ignored) and answers success; any thrown database error diverts to the
JSON-only fallback. -/
def postStatus (name activity state : Option String) (ts : String) (now : Nat)
    (st : ServerState) (f : PostFaults) : HandlerResult :=
  if !(jsTruthy name) then ⟨400, st, 0⟩
  else
    let nm := name.getD ""
    if f.upsertThrows then postFallback nm activity state ts st f.mirrorWriteFails
    else
      let u := insertOrUpdateMember st.dbMembers st.nextMemberId nm
                 (jsOr activity "") (jsOr state "") ts now
      let st1 := { st with dbMembers := u.1, nextMemberId := u.2.2 }
      if f.historyThrows then postFallback nm activity state ts st1 f.mirrorWriteFails
      else
        let h := insertHistory st1.dbHistory st1.nextHistId u.2.1
                   (jsOr activity "") (jsOr state "") ts
        let st2 := { st1 with dbHistory := h.1, nextHistId := h.2 }
        let mirror' := updateMirrorList st2.mirror nm activity state ts
        if f.mirrorWriteFails then ⟨200, st2, 0⟩
        else ⟨200, { st2 with mirror := mirror' }, 1⟩

/-- The DELETE /api/status/:name handler (`src/server.js` lines 221-252).
On the database path: 404 and no write when nothing was deleted, otherwise
cascade-delete and rewrite the mirror (write result ignored, always 200).
When the database throws: JSON-only fallback, which filters the mirror and
answers success iff the write succeeds, member present or not. -/
def deleteStatus (name : String) (st : ServerState)
    (dbThrows mirrorWriteFails : Bool) : HandlerResult :=
  if dbThrows then
    let mirror' := st.mirror.filter (fun m => !(m.name == name))
    if mirrorWriteFails then ⟨500, st, 0⟩
    else ⟨200, { st with mirror := mirror' }, 1⟩
  else
    let d := deleteMemberDb st.dbMembers st.dbHistory name
    if !d.1 then ⟨404, st, 0⟩
    else
      let st1 := { st with dbMembers := d.2.1, dbHistory := d.2.2 }
      let mirror' := st1.mirror.filter (fun m => !(m.name == name))
      if mirrorWriteFails then ⟨200, st1, 0⟩
      else ⟨200, { st1 with mirror := mirror' }, 1⟩

/-- Possible states of the mirror file as seen by readData
(`src/server.js` lines 31-39): absent, unreadable or unparsable, or a
well-formed document with a members array. -/
inductive MirrorFile where
  | missing : MirrorFile
  | corrupt : MirrorFile
  | ok : List Member → MirrorFile
deriving DecidableEq

/-- readData (`src/server.js` lines 31-39): parse the mirror file,
answering `{ members: [] }` on any read or parse error. -/
def readDataMembers : MirrorFile → List Member
  | .ok ms => ms
  | _ => []

/-- The GET /api/status handler (`src/server.js` lines 88-98): serve the
database snapshot; if the database read throws, serve the mirror file via
readData.  Every branch answers with `res.json`, i.e. HTTP 200. -/
def getStatusEndpoint (dbOk : Bool) (rows : List DbMember) (file : MirrorFile) :
    Nat × List Member :=
  if dbOk then (200, (getAllMembers rows).map dbToMember)
  else (200, readDataMembers file)

/-- One SSE subscriber as the server sees it (`src/server.js` lines 126-128):
an identity and an output channel whose observable behavior during one
write pass is: the channel may already be ended (`res.writableEnded`), and
otherwise a write may throw. -/
structure Client where
  id : Nat
  writableEnded : Bool
  writeFails : Bool
deriving DecidableEq

/-- A subscriber receives a frame iff its channel is still open and the
write does not throw. -/
def clientOk (c : Client) : Bool :=
  !c.writableEnded && !c.writeFails

/-- The forEach loop of broadcastToClients (`src/server.js` lines 57-68):
walks the registry in order collecting, in iteration order, the ids that
received the frame and the (ascending) indices pushed onto
`disconnectedClients` — an index is marked when the channel is ended or
the write throws. -/
def bLoop : List Client → List Nat × List Nat
  | [] => ([], [])
  | c :: cs =>
    let r := bLoop cs
    if c.writableEnded then (r.1, 0 :: r.2.map (fun i => i + 1))
    else if c.writeFails then (r.1, 0 :: r.2.map (fun i => i + 1))
    else (c.id :: r.1, r.2.map (fun i => i + 1))

/-- Removal of the element at one index: `array.splice(i, 1)`. -/
def spliceAt (l : List Client) (i : Nat) : List Client :=
  l.take i ++ l.drop (i + 1)

/-- broadcastToClients (`src/server.js` lines 53-78): write the frame to
every registered client, then remove the marked indices by splicing them
in descending order (`disconnectedClients.reverse().forEach(splice)`).
Yields the ids that received the frame and the registry after the pass. -/
def broadcastToClients (cs : List Client) : List Nat × List Client :=
  ((bLoop cs).1, ((bLoop cs).2.reverse).foldl spliceAt cs)

/-- The heartbeat forEach (`src/server.js` lines 368-380): every 30s write
`:heartbeat` to each client whose channel is not ended; a write error is
caught and ignored (comment in source: removed by the next cleanup).
Yields the ids that received the keep-alive frame. -/
def hbLoop : List Client → List Nat
  | [] => []
  | c :: cs =>
    if c.writableEnded then hbLoop cs
    else if c.writeFails then hbLoop cs
    else c.id :: hbLoop cs

/-- The whole heartbeat pass: the recipients, and the registry after the
pass — the loop body contains no removal, so the registry is returned as
it was. -/
def heartbeatPass (cs : List Client) : List Nat × List Client :=
  (hbLoop cs, cs)

/-- State of the debounced fs.watch trigger (`src/server.js` lines 348-365):
the id of the pending setTimeout (if any), a source of fresh timer ids,
the ids already passed to clearTimeout, and the store contents the
broadcast callback would read right now. -/
structure WatchState where
  pending : Option Nat
  nextId : Nat
  cancelled : List Nat
  store : List Member
deriving DecidableEq

/-- One fs.watch change signal (`src/server.js` lines 349-354), raised by a
write that makes the store contents `newStore`: clear the pending timer if
one exists, then start a fresh 100ms timer. -/
def watchSignal (w : WatchState) (newStore : List Member) : WatchState :=
  { pending := some w.nextId,
    nextId := w.nextId + 1,
    cancelled := match w.pending with
      | some t => t :: w.cancelled
      | none => w.cancelled,
    store := newStore }

/-- Initial watcher state over a given store. -/
def watchInit (s0 : List Member) : WatchState :=
  ⟨none, 0, [], s0⟩

/-- Process a burst of writes, each raising one change signal. -/
def runSignals (w : WatchState) (writes : List (List Member)) : WatchState :=
  writes.foldl watchSignal w

/-- The window settles: every timer that was started and never cancelled
fires; each firing callback reads the store at that moment
(`db.getAllMembers()` inside the setTimeout body, `src/server.js`
lines 354-364) and broadcasts it.  Yields the list of broadcast payloads. -/
def settleBroadcasts (w : WatchState) : List (List Member) :=
  ((List.range w.nextId).filter (fun t => decide (t ∉ w.cancelled))).map
    (fun _ => w.store)

/-- Client-side constants (`src/app.js` lines 433-434). -/
def RECONNECT_INTERVAL : Nat := 3000

/-- Maximum reconnect attempt count (`src/app.js` line 434). -/
def MAX_RECONNECT_ATTEMPTS : Nat := 10

/-- Observable state of the client reconnection controller
(`src/app.js` lines 421-435): attempt counter, pending retry timer
holding its delay in ms, the streaming/polling mode flags, and how many
immediate pull requests were issued. -/
structure SSEClient where
  reconnectAttempts : Nat
  reconnectTimer : Option Nat
  useSSE : Bool
  polling : Bool
  pulls : Nat
deriving DecidableEq

/-- The eventSource.onerror handler (`src/app.js` lines 663-693): close,
increment the counter; while it is below the maximum schedule a retry
after `min(RECONNECT_INTERVAL * attempts, 30000)` ms (only if no timer is
already pending); otherwise switch to polling fallback with one immediate
fetch. -/
def onError (s : SSEClient) : SSEClient :=
  let a := s.reconnectAttempts + 1
  if a < MAX_RECONNECT_ATTEMPTS then
    if s.reconnectTimer.isNone then
      { s with reconnectAttempts := a,
               reconnectTimer := some (min (RECONNECT_INTERVAL * a) 30000) }
    else
      { s with reconnectAttempts := a }
  else
    { s with reconnectAttempts := a, useSSE := false,
             polling := true, pulls := s.pulls + 1 }

/-- The retry timer fires (`src/app.js` lines 674-677): the callback nulls
the timer and calls connectSSE; in the persistent-failure scenario the new
connection will fail again, producing the next onError. -/
def timerFiresReconnect (s : SSEClient) : SSEClient :=
  { s with reconnectTimer := none }

/-- Controller state right after a successful open (`src/app.js`
lines 649-660): counter zero, no pending timer, streaming mode. -/
def initClient : SSEClient :=
  ⟨0, none, true, false, 0⟩

/-- Controller state after n complete failure cycles (error, then the
scheduled retry fires and fails again). -/
def afterErrors : Nat → SSEClient
  | 0 => initClient
  | n + 1 => timerFiresReconnect (onError (afterErrors n))

/-- Controller state observed immediately after the n-th consecutive
transport error (n ≥ 1), before any scheduled timer fires. -/
def afterNthError (n : Nat) : SSEClient :=
  onError (afterErrors (n - 1))

/-- calculateStatusHash (`src/app.js` lines 572-580):
`JSON.stringify(members.map(m => ({name, activity, state})))`.
The serialized string is modelled by the projected list itself:
`JSON.stringify` is injective on arrays of these fixed-shape records, so
two snapshots get the same string exactly when their projected lists are
equal. -/
def calculateStatusHash (members : List Member) :
    List (String × String × String) :=
  members.map (fun m => (m.name, m.activity, m.state))

/-- The fingerprint-compare step shared by eventSource.onmessage
(`src/app.js` lines 630-646) and fetchStatus (lines 709-739): given the
stored `lastStatusHash` (null initially) and a received member list,
whether notifyStatusChange fires, and the updated stored hash. -/
def receiveSnapshot (lastHash : Option (List (String × String × String)))
    (members : List Member) :
    Bool × Option (List (String × String × String)) :=
  let h := calculateStatusHash members
  (match lastHash with
   | none => false
   | some prev => decide (prev ≠ h),
   some h)

/-! Concrete fixtures used by the closed theorems below. -/

/-- A server state holding one member A with activity "home", state "busy",
present identically in the database and in the mirror file. -/
def stA : ServerState :=
  ⟨[⟨1, "A", "home", "busy", "t0", 5⟩], 2, [], 0, [⟨"A", "home", "busy", "t0"⟩]⟩

/-- An empty server state: no members, no history, empty mirror. -/
def stEmpty : ServerState := ⟨[], 1, [], 0, []⟩

/-- C1: a fault-free POST for existing member A that supplies a state but
omits the activity (`{name:"A", state:"sleeping"}` against prior activity
"home") stores activity "" in the members table while the mirror file kept
the prior "home" — the authoritative store does not fall back to the prior
value, contradicting the fallback the spec (and the handler's own mirror
write) prescribes. -/
theorem c1_db_upsert_drops_omitted_field :
    (getMemberByName (postStatus (some "A") none (some "sleeping") "t1" 6 stA
        ⟨false, false, false⟩).state.dbMembers "A").map
        (fun m => (m.activity, m.state)) = some ("", "sleeping") ∧
    ((postStatus (some "A") none (some "sleeping") "t1" 6 stA
        ⟨false, false, false⟩).state.mirror.find? (fun m => m.name == "A")).map
        (fun m => (m.activity, m.state)) = some ("home", "sleeping") := by
  constructor <;> rfl

/-- C2 counterexample: after the 10th consecutive transport error no retry
delay is scheduled at all — the controller enters the polling fallback
immediately — refuting the claim that the delay scheduled after the n-th
error equals min(n × 3000, 30000) for every n up to 10. -/
theorem c2_tenth_error_schedules_no_retry :
    (afterNthError 10).reconnectTimer = none ∧
    (afterNthError 10).polling = true ∧
    (afterNthError 10).useSSE = false := by
  refine ⟨?_, ?_, ?_⟩ <;> rfl

/-- C3 counterexample: two snapshots carrying identical (name, activity,
state) triples for each of the members A and B — only the timestamps and
hence the order differ — produce different fingerprints, and receiving the
second right after the first does trigger a status-change notification. -/
theorem c3_reordered_snapshot_triggers_notification :
    (calculateStatusHash [⟨"A", "home", "busy", "t1"⟩, ⟨"B", "out", "fine", "t2"⟩]).Perm
      (calculateStatusHash [⟨"B", "out", "fine", "t4"⟩, ⟨"A", "home", "busy", "t3"⟩]) ∧
    (receiveSnapshot
      (receiveSnapshot none [⟨"A", "home", "busy", "t1"⟩, ⟨"B", "out", "fine", "t2"⟩]).2
      [⟨"B", "out", "fine", "t4"⟩, ⟨"A", "home", "busy", "t3"⟩]).1 = true := by
  constructor
  · decide
  · rfl

/-- C4 counterexample: when the history insert throws after the member
upsert committed (a write failure inside one logical update), the handler
answers success (200) via the JSON fallback, the members table keeps the
new activity "walk", and no history row exists — partial state together
with a success response. -/
theorem c4_history_failure_leaves_partial_state :
    (postStatus (some "A") (some "walk") none "t1" 6 stA
        ⟨false, true, false⟩).status = 200 ∧
    (postStatus (some "A") (some "walk") none "t1" 6 stA
        ⟨false, true, false⟩).state.dbHistory = [] ∧
    (getMemberByName (postStatus (some "A") (some "walk") none "t1" 6 stA
        ⟨false, true, false⟩).state.dbMembers "A").map (fun m => m.activity)
      = some "walk" := by
  refine ⟨?_, ?_, ?_⟩ <;> rfl

/-- C5 counterexample: a subscriber whose keep-alive write fails is left in
the registry by the heartbeat pass, although a broadcast pass over the same
registry would remove it — the heartbeat does not follow the deferred
removal policy of snapshot writes. -/
theorem c5_heartbeat_ignores_write_failure :
    (heartbeatPass [⟨7, false, true⟩]).2 = [⟨7, false, true⟩] ∧
    (broadcastToClients [⟨7, false, true⟩]).2 = [] := by
  constructor <;> rfl

/-- C5 amended: heartbeat write failures are simply ignored — the heartbeat
pass never changes the subscriber registry, for any registry contents; the
failed subscriber is removed only later, by a broadcast pass or by the
connection close handler.  The frame reaches exactly the subscribers whose
channel is open and whose write succeeds. -/
theorem c5_heartbeat_never_removes (cs : List Client) :
    (heartbeatPass cs).2 = cs ∧
    (heartbeatPass cs).1 = (cs.filter clientOk).map (fun c => c.id) := by
  refine ⟨rfl, ?_⟩
  induction cs with
  | nil => rfl
  | cons c cs ih =>
    simp only [heartbeatPass, hbLoop] at *
    cases hwe : c.writableEnded <;> cases hwf : c.writeFails <;>
      simp [List.filter_cons, clientOk, hwe, hwf, ih]

/-- C8 counterexample: with the database unavailable, DELETE for the
nonexistent member A answers success (200) and performs one mirror write —
which raises the fs.watch change signal, i.e. causes a broadcast — instead
of failing with a not-found error. -/
theorem c8_delete_missing_member_db_down_succeeds :
    (deleteStatus "A" stEmpty true false).status = 200 ∧
    (deleteStatus "A" stEmpty true false).mirrorWrites = 1 := by
  constructor <;> rfl

/-- C9 counterexample: when the database is unavailable the POST succeeds
through the JSON fallback (status 200) while appending no history row at
all — a success response with zero history rows. -/
theorem c9_fallback_success_appends_no_history :
    (postStatus (some "A") (some "x") none "t1" 6 stEmpty
        ⟨true, false, false⟩).status = 200 ∧
    (postStatus (some "A") (some "x") none "t1" 6 stEmpty
        ⟨true, false, false⟩).state.dbHistory = [] := by
  constructor <;> rfl

/-- C10: GET /api/status is total: whatever the database availability, the
table contents and the mirror-file condition, the endpoint answers 200
with a members list; when the database read throws and the mirror file is
missing or unparsable, that list is empty. -/
theorem c10_get_status_total (dbOk : Bool) (rows : List DbMember)
    (file : MirrorFile) :
    (getStatusEndpoint dbOk rows file).1 = 200 ∧
    (getStatusEndpoint false rows MirrorFile.missing).2 = [] ∧
    (getStatusEndpoint false rows MirrorFile.corrupt).2 = [] := by
  refine ⟨?_, rfl, rfl⟩
  cases dbOk <;> rfl

/-- C2 amended: retry delays are scheduled only after errors 1..9, each
equal to min(n × 3000, 30000) = n × 3000 (the 30 s cap is never reached,
the largest delay being 27 s); after the 10th consecutive error no retry
is scheduled — the controller enters the polling fallback — so at most 9
retries occur and an 11th attempt never happens. -/
theorem c2_backoff_linear_then_fallback (n : Nat) (h1 : 1 ≤ n) (h2 : n ≤ 9) :
    (afterNthError n).reconnectTimer = some (min (RECONNECT_INTERVAL * n) 30000) ∧
    min (RECONNECT_INTERVAL * n) 30000 = n * 3000 ∧
    (afterNthError n).polling = false ∧
    (afterNthError 10).reconnectTimer = none ∧
    (afterNthError 10).polling = true := by
  interval_cases n <;> exact ⟨by decide, by decide, by decide, by decide, by decide⟩

/-- Witness for the amended backoff theorem at n = 3. -/
theorem c2_backoff_linear_then_fallback_witness :
    (afterNthError 3).reconnectTimer = some (min (RECONNECT_INTERVAL * 3) 30000) ∧
    min (RECONNECT_INTERVAL * 3) 30000 = 3 * 3000 ∧
    (afterNthError 3).polling = false ∧
    (afterNthError 10).reconnectTimer = none ∧
    (afterNthError 10).polling = true :=
  c2_backoff_linear_then_fallback 3 (by decide) (by decide)

/-- C3 amended: two received snapshots whose member lists project to the
same sequence of (name, activity, state) triples — same members in the
same order, timestamps free — yield equal fingerprints, and receiving the
second right after the first triggers no status-change notification.
(When the same triples arrive in a different order — which differing
timestamps cause, since the server orders members by `updated_at` — the
fingerprints differ and a notification does fire, as the counterexample
shows.) -/
theorem c3_samehash_no_notification
    (prev : Option (List (String × String × String))) (l1 l2 : List Member)
    (h : calculateStatusHash l1 = calculateStatusHash l2) :
    (receiveSnapshot (receiveSnapshot prev l1).2 l2).1 = false := by
  simp [receiveSnapshot, h]

/-- Witness for the fingerprint theorem: the same single member with a
changed timestamp only. -/
theorem c3_samehash_no_notification_witness :
    (receiveSnapshot (receiveSnapshot none [⟨"A", "home", "busy", "t1"⟩]).2
      [⟨"A", "home", "busy", "t2"⟩]).1 = false :=
  c3_samehash_no_notification none
    [⟨"A", "home", "busy", "t1"⟩] [⟨"A", "home", "busy", "t2"⟩] (by decide)

/-- C4 amended: within one logical update the member upsert alone is
transactional, but current status and history are not jointly atomic.
If the upsert throws, neither table changes.  If both database steps
succeed, the member row is upserted and exactly one history row appended,
with success reported (even when the mirror write fails — that failure is
not reported on this path).  If the history insert throws after the
upsert, the member row stays updated while the history is untouched, and
the caller is still told success whenever the fallback mirror write
succeeds; only when that mirror write also fails is a failure (500)
returned. -/
theorem c4_upsert_atomic_history_separate (name : String)
    (a s : Option String) (ts : String) (now : Nat) (st : ServerState)
    (hname : jsTruthy (some name) = true) :
    (∀ hf mf,
      (postStatus (some name) a s ts now st ⟨true, hf, mf⟩).state.dbMembers
        = st.dbMembers ∧
      (postStatus (some name) a s ts now st ⟨true, hf, mf⟩).state.dbHistory
        = st.dbHistory) ∧
    (∀ mf,
      (postStatus (some name) a s ts now st ⟨false, false, mf⟩).state.dbMembers
        = (insertOrUpdateMember st.dbMembers st.nextMemberId name
            (jsOr a "") (jsOr s "") ts now).1 ∧
      (postStatus (some name) a s ts now st ⟨false, false, mf⟩).state.dbHistory
        = st.dbHistory ++ [⟨st.nextHistId,
            (insertOrUpdateMember st.dbMembers st.nextMemberId name
              (jsOr a "") (jsOr s "") ts now).2.1, jsOr a "", jsOr s "", ts⟩] ∧
      (postStatus (some name) a s ts now st ⟨false, false, mf⟩).status = 200) ∧
    ((postStatus (some name) a s ts now st ⟨false, true, false⟩).state.dbMembers
        = (insertOrUpdateMember st.dbMembers st.nextMemberId name
            (jsOr a "") (jsOr s "") ts now).1 ∧
      (postStatus (some name) a s ts now st ⟨false, true, false⟩).state.dbHistory
        = st.dbHistory ∧
      (postStatus (some name) a s ts now st ⟨false, true, false⟩).status = 200) ∧
    (postStatus (some name) a s ts now st ⟨false, true, true⟩).status = 500 := by
  refine ⟨?_, ?_, ?_, ?_⟩
  · intro hf mf
    cases mf <;> simp [postStatus, postFallback, hname]
  · intro mf
    cases mf <;> simp [postStatus, postFallback, insertHistory, hname]
  · simp [postStatus, postFallback, hname]
  · simp [postStatus, postFallback, hname]

/-- Witness for the atomicity theorem at a concrete request and state. -/
theorem c4_upsert_atomic_history_separate_witness :
    (∀ hf mf,
      (postStatus (some "A") (some "walk") none "t1" 6 stA ⟨true, hf, mf⟩).state.dbMembers
        = stA.dbMembers ∧
      (postStatus (some "A") (some "walk") none "t1" 6 stA ⟨true, hf, mf⟩).state.dbHistory
        = stA.dbHistory) ∧
    (∀ mf,
      (postStatus (some "A") (some "walk") none "t1" 6 stA ⟨false, false, mf⟩).state.dbMembers
        = (insertOrUpdateMember stA.dbMembers stA.nextMemberId "A"
            (jsOr (some "walk") "") (jsOr none "") "t1" 6).1 ∧
      (postStatus (some "A") (some "walk") none "t1" 6 stA ⟨false, false, mf⟩).state.dbHistory
        = stA.dbHistory ++ [⟨stA.nextHistId,
            (insertOrUpdateMember stA.dbMembers stA.nextMemberId "A"
              (jsOr (some "walk") "") (jsOr none "") "t1" 6).2.1,
            jsOr (some "walk") "", jsOr none "", "t1"⟩] ∧
      (postStatus (some "A") (some "walk") none "t1" 6 stA ⟨false, false, mf⟩).status = 200) ∧
    ((postStatus (some "A") (some "walk") none "t1" 6 stA ⟨false, true, false⟩).state.dbMembers
        = (insertOrUpdateMember stA.dbMembers stA.nextMemberId "A"
            (jsOr (some "walk") "") (jsOr none "") "t1" 6).1 ∧
      (postStatus (some "A") (some "walk") none "t1" 6 stA ⟨false, true, false⟩).state.dbHistory
        = stA.dbHistory ∧
      (postStatus (some "A") (some "walk") none "t1" 6 stA ⟨false, true, false⟩).status = 200) ∧
    (postStatus (some "A") (some "walk") none "t1" 6 stA ⟨false, true, true⟩).status = 500 :=
  c4_upsert_atomic_history_separate "A" (some "walk") none "t1" 6 stA (by decide)

/-- C9 amended: every POST that succeeds through the database path appends
exactly one history row (whatever the mirror write does); under any fault
combination the previously existing history rows are preserved unchanged
as a prefix (history is never mutated); and the DELETE handler's database
path removes exactly the history rows that reference the deleted member —
the cascade of the foreign key. -/
theorem c9_history_append_only (name : String) (a s : Option String)
    (ts : String) (now : Nat) (st : ServerState)
    (hname : jsTruthy (some name) = true) :
    (∀ mf,
      (postStatus (some name) a s ts now st ⟨false, false, mf⟩).state.dbHistory
        = st.dbHistory ++ [⟨st.nextHistId,
            (insertOrUpdateMember st.dbMembers st.nextMemberId name
              (jsOr a "") (jsOr s "") ts now).2.1, jsOr a "", jsOr s "", ts⟩]) ∧
    (∀ f : PostFaults,
      ((postStatus (some name) a s ts now st f).state.dbHistory).take
          st.dbHistory.length = st.dbHistory) ∧
    (∀ mwf,
      (deleteStatus name st false mwf).state.dbHistory
        = st.dbHistory.filter (fun h =>
            !(((st.dbMembers.filter (fun r => r.name == name)).map
                (fun r => r.id)).contains h.member_id))) := by
  refine ⟨?_, ?_, ?_⟩
  · intro mf
    cases mf <;> simp [postStatus, postFallback, insertHistory, hname]
  · intro f
    obtain ⟨ut, ht, mf⟩ := f
    cases ut <;> cases ht <;> cases mf <;>
      simp [postStatus, postFallback, insertHistory, hname, List.take_left,
        List.take_length]
  · intro mwf
    by_cases hany : st.dbMembers.any (fun r => r.name == name) = true
    · cases mwf <;> simp [deleteStatus, deleteMemberDb, hany]
    · have hany' : st.dbMembers.any (fun r => r.name == name) = false := by
        revert hany
        cases st.dbMembers.any (fun r => r.name == name) <;> simp
      have hnil : st.dbMembers.filter (fun r => r.name == name) = [] := by
        rw [List.filter_eq_nil_iff]
        intro r hr
        have := List.any_eq_false.mp hany' r hr
        simpa using this
      cases mwf <;> simp [deleteStatus, deleteMemberDb, hany', hnil]

/-- Witness for the history append-only theorem at a concrete request. -/
theorem c9_history_append_only_witness :
    (∀ mf,
      (postStatus (some "A") (some "x") none "t1" 6 stEmpty ⟨false, false, mf⟩).state.dbHistory
        = stEmpty.dbHistory ++ [⟨stEmpty.nextHistId,
            (insertOrUpdateMember stEmpty.dbMembers stEmpty.nextMemberId "A"
              (jsOr (some "x") "") (jsOr none "") "t1" 6).2.1,
            jsOr (some "x") "", jsOr none "", "t1"⟩]) ∧
    (∀ f : PostFaults,
      ((postStatus (some "A") (some "x") none "t1" 6 stEmpty f).state.dbHistory).take
          stEmpty.dbHistory.length = stEmpty.dbHistory) ∧
    (∀ mwf,
      (deleteStatus "A" stEmpty false mwf).state.dbHistory
        = stEmpty.dbHistory.filter (fun h =>
            !(((stEmpty.dbMembers.filter (fun r => r.name == "A")).map
                (fun r => r.id)).contains h.member_id))) :=
  c9_history_append_only "A" (some "x") none "t1" 6 stEmpty (by decide)

/-- Splicing at a successor index leaves the head in place. -/
lemma spliceAt_succ_cons (c : Client) (cs : List Client) (j : Nat) :
    spliceAt (c :: cs) (j + 1) = c :: spliceAt cs j := by
  simp [spliceAt]

/-- Splicing at index zero removes the head. -/
lemma spliceAt_zero (c : Client) (cs : List Client) :
    spliceAt (c :: cs) 0 = cs := by
  simp [spliceAt]

/-- Folding splices over indices that are all shifted by one never touches
the head. -/
lemma foldl_spliceAt_shift (J : List Nat) (c : Client) (cs : List Client) :
    (J.map (fun i => i + 1)).foldl spliceAt (c :: cs)
      = c :: J.foldl spliceAt cs := by
  induction J generalizing cs with
  | nil => rfl
  | cons j J ih => simp [List.foldl_cons, spliceAt_succ_cons, ih]

/-- The descending-index splice removal performed after the broadcast loop
removes exactly the clients with failed writes: it equals filtering the
registry by clientOk. -/
lemma removal_eq_filter (cs : List Client) :
    ((bLoop cs).2.reverse).foldl spliceAt cs = cs.filter clientOk := by
  induction cs with
  | nil => rfl
  | cons c cs ih =>
    cases hwe : c.writableEnded
    · cases hwf : c.writeFails
      · have hb : (bLoop (c :: cs)).2 = (bLoop cs).2.map (fun i => i + 1) := by
          simp [bLoop, hwe, hwf]
        rw [hb, ← List.map_reverse, foldl_spliceAt_shift, ih]
        simp [List.filter_cons, clientOk, hwe, hwf]
      · have hb : (bLoop (c :: cs)).2 = 0 :: (bLoop cs).2.map (fun i => i + 1) := by
          simp [bLoop, hwe, hwf]
        rw [hb]
        simp only [List.reverse_cons, ← List.map_reverse, List.foldl_append,
          foldl_spliceAt_shift, List.foldl_cons, List.foldl_nil, spliceAt_zero]
        rw [ih]
        simp [List.filter_cons, clientOk, hwe, hwf]
    · have hb : (bLoop (c :: cs)).2 = 0 :: (bLoop cs).2.map (fun i => i + 1) := by
        simp [bLoop, hwe]
      rw [hb]
      simp only [List.reverse_cons, ← List.map_reverse, List.foldl_append,
        foldl_spliceAt_shift, List.foldl_cons, List.foldl_nil, spliceAt_zero]
      rw [ih]
      simp [List.filter_cons, clientOk, hwe]

/-- The broadcast loop delivers the frame to exactly the clients whose
channel is open and whose write does not throw, in registry order. -/
lemma bLoop_fst (cs : List Client) :
    (bLoop cs).1 = (cs.filter clientOk).map (fun c => c.id) := by
  induction cs with
  | nil => rfl
  | cons c cs ih =>
    cases hwe : c.writableEnded <;> cases hwf : c.writeFails <;>
      simp [bLoop, List.filter_cons, clientOk, hwe, hwf, ih]

/-- C6: one broadcast pass writes the frame to every subscriber whose
channel works — a per-subscriber failure never prevents delivery to the
others, since the delivered set is exactly the clientOk subscribers — and
the failed subscribers, only marked during the iteration, are all removed
together by the post-iteration splice, leaving precisely the healthy
subscribers registered. -/
theorem c6_broadcast_failure_isolation (cs : List Client) :
    broadcastToClients cs
      = ((cs.filter clientOk).map (fun c => c.id), cs.filter clientOk) := by
  unfold broadcastToClients
  rw [bLoop_fst, removal_eq_filter]

/-- C8 amended: provided the database delete does not throw, a DELETE for
a member absent from the members table answers 404 and changes nothing:
the whole handler result is the unchanged state with zero mirror writes,
hence no fs.watch signal and no broadcast.  (When the database throws, the
fallback path answers success even for a missing member and rewrites the
mirror, causing a broadcast — the counterexample.) -/
theorem c8_delete_missing_member_404 (st : ServerState) (name : String)
    (mwf : Bool)
    (habs : st.dbMembers.all (fun r => !(r.name == name)) = true) :
    deleteStatus name st false mwf = ⟨404, st, 0⟩ := by
  have hany : st.dbMembers.any (fun r => r.name == name) = false := by
    rw [List.any_eq_false]
    intro r hr
    have := List.all_eq_true.mp habs r hr
    simpa using this
  simp [deleteStatus, deleteMemberDb, hany]

/-- Witness for the DELETE not-found theorem on the empty state. -/
theorem c8_delete_missing_member_404_witness :
    deleteStatus "B" stA false false = ⟨404, stA, 0⟩ :=
  c8_delete_missing_member_404 stA "B" false (by decide)

/-- Well-formedness of the watcher state: the cancelled timers are exactly
the created ones that are not the pending one, and the pending timer (if
any) was created. -/
def WFwatch (w : WatchState) : Prop :=
  (∀ t, t ∈ w.cancelled ↔ (t < w.nextId ∧ w.pending ≠ some t)) ∧
  (∀ t, w.pending = some t → t < w.nextId)

/-- The initial watcher state is well-formed. -/
lemma WFwatch_init (s0 : List Member) : WFwatch (watchInit s0) := by
  constructor
  · intro t
    simp [watchInit]
  · intro t h
    simp [watchInit] at h

/-- The timer created by a signal is the next fresh id. -/
lemma watchSignal_nextId (w : WatchState) (ns : List Member) :
    (watchSignal w ns).nextId = w.nextId + 1 := rfl

/-- After a signal the fresh timer is pending. -/
lemma watchSignal_pending (w : WatchState) (ns : List Member) :
    (watchSignal w ns).pending = some w.nextId := rfl

/-- With no pending timer a signal cancels nothing. -/
lemma watchSignal_cancelled_none (w : WatchState) (ns : List Member)
    (h : w.pending = none) :
    (watchSignal w ns).cancelled = w.cancelled := by
  simp [watchSignal, h]

/-- With a pending timer a signal cancels exactly that timer. -/
lemma watchSignal_cancelled_some (w : WatchState) (ns : List Member)
    (p : Nat) (h : w.pending = some p) :
    (watchSignal w ns).cancelled = p :: w.cancelled := by
  simp [watchSignal, h]

/-- A change signal preserves well-formedness: it cancels the previously
pending timer (if any) and makes the freshly created timer pending. -/
lemma WFwatch_signal (w : WatchState) (hw : WFwatch w) (ns : List Member) :
    WFwatch (watchSignal w ns) := by
  obtain ⟨h1, h2⟩ := hw
  constructor
  · intro t
    rw [watchSignal_nextId, watchSignal_pending]
    cases hp : w.pending with
    | none =>
      rw [watchSignal_cancelled_none w ns hp, h1 t, hp]
      simp only [ne_eq, Option.some.injEq, reduceCtorEq, not_false_iff,
        and_true]
      omega
    | some p =>
      have hpn : p < w.nextId := h2 p hp
      rw [watchSignal_cancelled_some w ns p hp, List.mem_cons, h1 t, hp]
      simp only [ne_eq, Option.some.injEq]
      omega
  · intro t h
    rw [watchSignal_pending] at h
    rw [watchSignal_nextId]
    simp only [Option.some.injEq] at h
    omega

/-- Processing any burst of signals preserves well-formedness. -/
lemma WFwatch_runSignals (w : WatchState) (hw : WFwatch w)
    (l : List (List Member)) : WFwatch (runSignals w l) := by
  induction l generalizing w with
  | nil => exact hw
  | cons x xs ih => exact ih (watchSignal w x) (WFwatch_signal w hw x)

/-- After a nonempty burst the pending timer is the most recently created
one. -/
lemma runSignals_pending (w : WatchState) (l : List (List Member))
    (hl : l ≠ []) :
    (runSignals w l).pending = some ((runSignals w l).nextId - 1) := by
  induction l generalizing w with
  | nil => exact absurd rfl hl
  | cons x xs ih =>
    by_cases hxs : xs = []
    · subst hxs
      simp [runSignals, watchSignal]
    · exact ih (watchSignal w x) hxs

/-- The store the settled callback reads is the one written by the last
signal of the burst. -/
lemma runSignals_store (w : WatchState) (l : List (List Member)) :
    (runSignals w l).store = l.getLastD w.store := by
  induction l generalizing w with
  | nil => rfl
  | cons x xs ih =>
    show (runSignals (watchSignal w x) xs).store = _
    rw [ih, List.getLastD_cons]
    rfl

/-- Filtering the range below n for equality with p < n keeps exactly p. -/
lemma range_filter_singleton (n p : Nat) (h : p < n) :
    (List.range n).filter (fun t => decide (t = p)) = [p] := by
  induction n with
  | zero => omega
  | succ k ih =>
    rw [List.range_succ, List.filter_append]
    by_cases hp : p = k
    · subst hp
      have h1 : (List.range p).filter (fun t => decide (t = p)) = [] := by
        rw [List.filter_eq_nil_iff]
        intro a ha
        rw [List.mem_range] at ha
        simp
        omega
      simp [h1]
    · have hpk : p < k := by omega
      rw [ih hpk]
      have h2 : List.filter (fun t => decide (t = p)) [k] = [] := by
        simp
        omega
      rw [h2]
      simp

/-- C7: for every nonempty burst of change signals inside one debounce
window — each signal restarting the 100ms timer and cancelling its
predecessor — exactly one broadcast cycle runs once the window settles,
and the snapshot it sends is the store state read at fire time, i.e. the
state after the last write of the window. -/
theorem c7_debounce_single_broadcast (s0 : List Member)
    (writes : List (List Member)) (hw : writes ≠ []) :
    settleBroadcasts (runSignals (watchInit s0) writes)
      = [writes.getLastD s0] := by
  have hwf : WFwatch (runSignals (watchInit s0) writes) :=
    WFwatch_runSignals _ (WFwatch_init s0) writes
  have hp : (runSignals (watchInit s0) writes).pending
      = some ((runSignals (watchInit s0) writes).nextId - 1) :=
    runSignals_pending _ writes hw
  have hn : 1 ≤ (runSignals (watchInit s0) writes).nextId := by
    have := hwf.2 _ hp
    omega
  have hpred : ∀ t ∈ List.range (runSignals (watchInit s0) writes).nextId,
      (decide (t ∉ (runSignals (watchInit s0) writes).cancelled))
        = (decide (t = (runSignals (watchInit s0) writes).nextId - 1)) := by
    intro t ht
    rw [List.mem_range] at ht
    rw [decide_eq_decide, hwf.1 t, hp]
    constructor
    · intro hni
      by_contra hne
      exact hni ⟨ht, by simp; omega⟩
    · intro he
      intro hcon
      apply hcon.2
      rw [he]
  rw [settleBroadcasts, List.filter_congr hpred,
    range_filter_singleton _ _ (by omega), List.map_cons, List.map_nil,
    runSignals_store]
  rfl

/-- Witness for the debounce theorem: two writes in one window yield one
broadcast carrying the second write's state. -/
theorem c7_debounce_single_broadcast_witness :
    settleBroadcasts (runSignals (watchInit [])
        [[⟨"A", "home", "", "t1"⟩], [⟨"A", "home", "busy", "t2"⟩]])
      = [[⟨"A", "home", "busy", "t2"⟩]] :=
  c7_debounce_single_broadcast []
    [[⟨"A", "home", "", "t1"⟩], [⟨"A", "home", "busy", "t2"⟩]] (by decide)

end FamilyBoard
